import Mathlib

/-!
Verification of the `ceda_sentinel` image candidate filtering and selection engine.

This file gives a shallow embedding, in Lean, of the decision logic of the
repository:

* `src/ceda_s2/find.py` (class `FindS2`): link extraction, quality gates
  (no-data fraction, s2cloudless window cloud fraction, whole-tile XML cloud
  metadata), per-feature candidate validation, and aggregation of results
  into the output table.
* `src/ceda_s1/find.py` (class `FindS1`): AOI-window spatial check, nodata
  patch filter via connected-component labelling, orbit counting and the
  filter-to-one-orbit-per-pass-direction selection.
* `src/main.py` (`get_images`): the incremental re-run merge of previously
  resolved rows with freshly searched rows.

Network and raster I/O (HTTP listing pages, `rasterio` window reads, XML
fetches) are external collaborators; they are passed in as explicit oracle
functions or as already-materialised values (pixel windows as rectangular
lists of integer pixel values, listing pages as lists of href strings).
A raster read that raises an exception in Python is an oracle returning
`none`.  Python floats holding cloud or nodata percentages are modelled as
rationals; Python values that can be either `False` or a number (the
`_s2_cloudless_filter` return convention) are modelled by dedicated
inductive types together with their Python truthiness predicate.  Fatal
Python exceptions (`TypeError`, `IndexError`, `AttributeError`) are
modelled with `Except String`.
-/

namespace CedaSentinel

/-! ## Pixel windows

A window read from a raster band is a rectangular grid of pixel values
(`src.read(1, window=window)` in `FindS2`, one band of `src.read(window=window)`
in `FindS1`). -/

/-- A pixel window: a rectangular grid of integer pixel values. -/
abbrev Window := List (List Int)

/-- `window_data.shape[0] * window_data.shape[1]`: total number of pixels in
the window (rows times columns of the rectangular array). -/
def windowSize (w : Window) : Nat :=
  w.length * (w.headD []).length

/-- `np.sum(...)` over a boolean test of each pixel of the window. -/
def countCells (w : Window) (p : Int → Bool) : Nat :=
  (w.map (fun row => row.countP p)).sum

/-! ## Python string methods

The source splits, searches and uppercases file names and metadata lines.
These methods are modelled structurally on the character list of a string
(every separator used by the source is a single character), so that
concrete runs reduce inside the kernel. -/

/-- Accumulator loop of `splitOnChar`. -/
def splitOnCharAux (sep : Char) : List Char → List Char → List (List Char)
  | [], acc => [acc.reverse]
  | c :: cs, acc =>
    if c = sep then acc.reverse :: splitOnCharAux sep cs []
    else splitOnCharAux sep cs (c :: acc)

/-- Python `s.split(sep)` for a single-character separator (empty parts are
kept, as in Python). -/
def splitOnChar (sep : Char) (s : String) : List String :=
  (splitOnCharAux sep s.toList []).map (fun cs => ⟨cs⟩)

/-- Python `s.startswith(pre)`. -/
def strStartsWith (s pre : String) : Bool :=
  pre.toList.isPrefixOf s.toList

/-- Python `s.endswith(suf)`. -/
def strEndsWith (s suf : String) : Bool :=
  suf.toList.isSuffixOf s.toList

/-- Python `t in s` substring membership. -/
def strContains (t s : String) : Bool :=
  s.toList.tails.any (fun suffix => t.toList.isPrefixOf suffix)

/-- Fuel-indexed loop of `strReplace`; the fuel starts at the string length
and the scanned list shrinks by at least one character per step. -/
def replaceFuel (pat rep : List Char) : Nat → List Char → List Char
  | 0, l => l
  | _ + 1, [] => []
  | n + 1, c :: cs =>
    if !pat.isEmpty && pat.isPrefixOf (c :: cs) then
      rep ++ replaceFuel pat rep n ((c :: cs).drop pat.length)
    else c :: replaceFuel pat rep n cs

/-- Python `s.replace(pat, rep)` (left-to-right, non-overlapping, nonempty
pattern). -/
def strReplace (s pat rep : String) : String :=
  ⟨replaceFuel pat.toList rep.toList s.toList.length s.toList⟩

/-- Python `str.upper(s)` for the ASCII file-name tokens of the archive. -/
def strToUpper (s : String) : String :=
  ⟨s.toList.map Char.toUpper⟩

/-- Decimal digits to a natural number. -/
def digitsToNat (cs : List Char) : Nat :=
  cs.foldl (fun a c => a * 10 + (c.toNat - 48)) 0

/-- Python `int(s)` restricted to unsigned decimal literals (the orbit
number and date tokens of the archive grammar); on any other input `int`
raises, and the embedding returns `none`. -/
def strToNat? (s : String) : Option Nat :=
  if !s.toList.isEmpty && s.toList.all Char.isDigit then some (digitsToNat s.toList)
  else none

namespace FindS2

/-! ## `FindS2._no_data_filter` (src/ceda_s2/find.py lines 314-335)

Reads the window of band 1 at the feature bounds, counts pixels equal to the
raster's declared nodata value, and returns
`nodata_total / window_size * 100 < self.nodata_max`
(`True` means the image passes the gate).  A raster open/read exception is
caught, logged and the function returns `False`. -/

/-- `nodata_total / window_size * 100`: the nodata percentage of the window. -/
def nodataPercent (nodata : Int) (window_data : Window) : ℚ :=
  (countCells window_data (fun v => v == nodata) : ℚ) / (windowSize window_data : ℚ) * 100

/-- `FindS2._no_data_filter`, success path: the boolean
`nodata_total / window_size * 100 < self.nodata_max` computed from the window
read at the feature bounds. -/
def no_data_filter (nodata : Int) (window_data : Window) (nodata_max : ℚ) : Bool :=
  decide (nodataPercent nodata window_data < nodata_max)

/-- `FindS2._no_data_filter` including the exception path: the oracle result
`readRes` is `none` when `rio.open`/`read` raised (caught, logged, `False`). -/
def no_data_filter_run (readRes : Option (Int × Window)) (nodata_max : ℚ) : Bool :=
  match readRes with
  | none => false
  | some (nodata, window_data) => no_data_filter nodata window_data nodata_max

/-! ## `FindS2._s2_cloudless_filter` (src/ceda_s2/find.py lines 337-365)

Reads the companion `clouds.tif` window at the feature bounds, computes
`cloud_issues / window_size * 100` where `cloud_issues` counts pixels whose
classification code is 1 or 2, and returns the Python float `cloud_percent`
when `cloud_percent < self.s2cloudless_max`, and Python `False` otherwise
(also on a raster read exception). -/

/-- The Python return value of `_s2_cloudless_filter`: either the literal
`False` or a float.  Note that the float `0.0` is falsy in Python. -/
inductive PyFloatOrFalse
  | fls
  | flt (q : ℚ)
deriving DecidableEq, Repr

/-- Python truthiness of a `float`-or-`False` value: `False` and `0.0` are
falsy, every other float is truthy. -/
def pyTruthy : PyFloatOrFalse → Bool
  | .fls => false
  | .flt q => q != 0

/-- `cloud_issues / window_size * 100` where `cloud_issues` counts pixels of
the cloud classification window equal to 1 or 2 (cloud and cloud shadow). -/
def cloudPercent (window_data : Window) : ℚ :=
  (countCells window_data (fun v => v == 1 || v == 2) : ℚ) / (windowSize window_data : ℚ) * 100

/-- `FindS2._s2_cloudless_filter`: `readRes` is the window of the companion
cloud raster at the feature bounds (`none` when the read raised, which is
caught and yields `False`). -/
def s2_cloudless_filter (readRes : Option Window) (s2cloudless_max : ℚ) : PyFloatOrFalse :=
  match readRes with
  | none => .fls
  | some window_data =>
    let cloud_percent := cloudPercent window_data
    if cloud_percent < s2cloudless_max then .flt cloud_percent else .fls

/-! ## `FindS2._validate_feature_image` (src/ceda_s2/find.py lines 423-449)

Chains the bounds gate, the no-data gate, and the s2cloudless gate for one
(feature, image) pair and returns Python `False` on any gate failure, and
`int(cloud_percent_feature)` on success. -/

/-- The Python return value of `_validate_feature_image`: `False` or an int.
The int `0` is falsy in Python. -/
inductive ValidateResult
  | fls
  | intVal (n : Int)
deriving DecidableEq, Repr

/-- Python truthiness of the `_validate_feature_image` return value. -/
def vTruthy : ValidateResult → Bool
  | .fls => false
  | .intVal n => n != 0

/-- `FindS2._validate_feature_image`.  `boundsOk` is the result of
`_img_bounds_filter`, `noDataOk` of `_no_data_filter` (both booleans in the
source), `cloudRes` the result of `_s2_cloudless_filter` for the pair.
`int(...)` truncates toward zero; the cloud percentage is nonnegative, so
truncation is `Rat.floor`. -/
def validate_feature_image (boundsOk : Bool) (noDataOk : Bool)
    (cloudRes : PyFloatOrFalse) : ValidateResult :=
  if !boundsOk then .fls
  else if !noDataOk then .fls
  else if !(pyTruthy cloudRes) then .fls
  else match cloudRes with
    | .fls => .fls
    | .flt q => .intVal q.floor

/-! ## `FindS2._extract_xml_cloud` (src/ceda_s2/find.py lines 249-272)

Digs the `gmd:supplementalinformation` character string out of the XML
sidecar, splits it into lines, strips all whitespace from each line, looks
for the line starting with `ARCSI_CLOUD_COVER`, and parses the value after
the `:` with `float(...)`.  Every failure (missing tags, field not found,
bad float) raises inside the `try` block, is caught, logged, and `None` is
returned. -/

/-- `"".join(aline.split())`: remove all whitespace characters from a line. -/
def stripWhitespace (s : String) : String :=
  ⟨s.toList.filter (fun c => !c.isWhitespace)⟩

/-- Python `float(...)` restricted to the plain nonnegative decimal literals
that occur as `ARCSI_CLOUD_COVER` values (`"12"`, `"0.31"`); anything else
fails, as `float(...)` raises on malformed input. -/
def parseFloat (s : String) : Option ℚ :=
  match splitOnChar '.' s with
  | [w] => (strToNat? w).map (fun n => (n : ℚ))
  | [w, f] =>
    match strToNat? w, strToNat? f with
    | some a, some b => some ((a : ℚ) + (b : ℚ) / ((10 : ℚ) ^ f.toList.length))
    | _, _ => none
  | _ => none

/-- `FindS2._extract_xml_cloud`.  `characterString` is the text of the
`gco:characterstring` element (`none` when `_read_xml` returned `None` or a
tag was missing, in which case the attribute access raises and the handler
returns `None`). -/
def extract_xml_cloud (characterString : Option String) : Option ℚ :=
  match characterString with
  | none => none
  | some cs =>
    let lines := (splitOnChar '\n' cs).map stripWhitespace
    match lines.find? (fun line => strStartsWith line "ARCSI_CLOUD_COVER") with
    | some line =>
      match (splitOnChar ':' line).getD 1 "" |> parseFloat with
      | some val => some val
      | none => none
    | none => none

/-! ## `FindS2._filter_overall_cloud` (src/ceda_s2/find.py lines 387-407)

When `check_img_cloud` is set, computes
`xml_cloud_percent = self._extract_xml_cloud(xml_extract) * 100` and returns
`xml_cloud_percent <= self.tile_cloud_max`.  When `_extract_xml_cloud`
returned `None`, the multiplication `None * 100` raises an uncaught
`TypeError` that aborts the whole run. -/

/-- `FindS2._filter_overall_cloud`.  `xmlCS` is the character-string content
of the candidate's XML sidecar as passed to `_extract_xml_cloud`. -/
def filter_overall_cloud (check_img_cloud : Bool) (tile_cloud_max : ℚ)
    (xmlCS : Option String) : Except String Bool :=
  if check_img_cloud then
    match extract_xml_cloud xmlCS with
    | none => .error "TypeError: unsupported operand type NoneType * int"
    | some v => .ok (decide (v * 100 ≤ tile_cloud_max))
  else .ok true

/-- `FindS2._overall_cloud_check_all` (src/ceda_s2/find.py lines 409-421):
`[i for i in image_links if self._filter_overall_cloud(i)]`.  An exception
raised for one candidate aborts the whole comprehension. -/
def overall_cloud_check_all (check_img_cloud : Bool) (tile_cloud_max : ℚ)
    (xmlOf : String → Option String) : List String → Except String (List String)
  | [] => .ok []
  | link :: rest =>
    match filter_overall_cloud check_img_cloud tile_cloud_max (xmlOf link) with
    | .error e => .error e
    | .ok keep =>
      match overall_cloud_check_all check_img_cloud tile_cloud_max xmlOf rest with
      | .error e => .error e
      | .ok tail => .ok (if keep then link :: tail else tail)

/-! ## `FindS2._extract_links` and `FindS2.all_img_list`
(src/ceda_s2/find.py lines 201-247)

`_extract_links` walks the hrefs of one date listing page, keeps those ending
in `stdsref.tif?download=1`; when a tile list is set it appends
`href.replace("?download=1", "")` once per tile token occurring in the href,
otherwise it appends the raw href; the collected list is returned as a Python
`set` (duplicates within the page removed).  `all_img_list` then `extend`s a
plain list with each page's set, so duplicates across pages are kept. -/

/-- The loop body of `FindS2._extract_links` before the final `set(...)`:
the appended hrefs in order, with per-tile repeats. -/
def extractLinksRaw (tile_list : List String) (page_hrefs : List String) : List String :=
  page_hrefs.flatMap (fun href =>
    if strEndsWith href "stdsref.tif?download=1" then
      if tile_list.isEmpty then [href]
      else (tile_list.filter (fun t => strContains t href)).map
        (fun _ => strReplace href "?download=1" "")
    else [])

/-- `FindS2._extract_links`: the page's matching hrefs as a set.  A Python
set retains one copy of each distinct string; it is modelled as `dedup` of
the appended list. -/
def extract_links (tile_list : List String) (page_hrefs : List String) : List String :=
  (extractLinksRaw tile_list page_hrefs).dedup

/-- `FindS2.all_img_list`: `img_links.extend(self._extract_links(url))` over
the date listing pages, returning a plain list. -/
def all_img_list (tile_list : List String) (pages : List (List String)) : List String :=
  pages.flatMap (fun page => extract_links tile_list page)

/-! ## `FindS2._find_images_per_feature` (src/ceda_s2/find.py lines 451-501)
and `FindS2._results_to_gdf` (lines 503-532)

`_find_images_per_feature` iterates the AOI features; for each feature it
filters the image links to the feature's intersecting tiles (falling back to
all links when the tile filter raises) and records a result row for every
link whose `_validate_feature_image` value is truthy.  `_results_to_gdf`
optionally keeps only the minimum-cloud row per feature id
(`groupby(id_col)["s2cloudles"].idxmin()`), left-merges the rows onto the
AOI table (a feature with no rows gets exactly one all-null row), and sorts
by `(id, image_date)` ascending. -/

/-- One AOI feature: its id-column value, a stand-in for the remaining
attribute columns, and an abstract geometry identity. -/
structure AoiFeature where
  fid : Int
  attr : Int
  geom : Nat
deriving DecidableEq, Repr

/-- One dict of `result_list`: feature id, image link, extracted date
(`None` on a date parse failure; dates are encoded as `YYYYMMDD` naturals,
which are ordered exactly like the `YYYY-MM-DD` strings of the source), and
the `s2cloudles` int score. -/
structure ResultRow where
  fid : Int
  image_link : String
  image_date : Option Nat
  s2cloudles : Int
deriving DecidableEq, Repr

/-- `FindS2._find_images_per_feature`.  `featureLinks` stands for the
tile-based link filtering of lines 474-485 (with its fall-back to all links
on an exception) and `validate` for `_validate_feature_image` with its
raster oracles fixed; `extractDate` is `_extract_date_from_link`. -/
def find_images_per_feature (featureLinks : AoiFeature → List String)
    (validate : AoiFeature → String → ValidateResult)
    (extractDate : String → Option Nat) (aoi : List AoiFeature) : List ResultRow :=
  aoi.flatMap (fun aoi_feature =>
    (featureLinks aoi_feature).filterMap (fun img_link =>
      let valid_cloud_percent := validate aoi_feature img_link
      if vTruthy valid_cloud_percent then
        match valid_cloud_percent with
        | .fls => none
        | .intVal n => some ⟨aoi_feature.fid, img_link, extractDate img_link, n⟩
      else none))

/-- One row of the output GeoDataFrame of `_results_to_gdf`: the AOI columns
plus the (nullable) `image_link`, `image_date` and `s2cloudles` columns. -/
structure OutputRow where
  fid : Int
  attr : Int
  image_link : Option String
  image_date : Option Nat
  s2cloudles : Option Int
deriving DecidableEq, Repr

/-- `Series.idxmin` over one group: the first row attaining the minimal
`s2cloudles` value. -/
def argminCloud : List ResultRow → Option ResultRow
  | [] => none
  | r :: rs =>
    match argminCloud rs with
    | none => some r
    | some m => if m.s2cloudles < r.s2cloudles then some m else some r

/-- The group keys of `results_df.groupby(id_col)`: the distinct feature ids
in ascending order (pandas sorts group keys; `insertionSort` is a stable
sort that reduces inside the kernel). -/
def groupIds (rows : List ResultRow) : List Int :=
  List.insertionSort (· ≤ ·) ((rows.map ResultRow.fid).dedup)

/-- The `min_cloud_only` branch of `_results_to_gdf`:
`results_df.loc[results_df.groupby(id_col)["s2cloudles"].idxmin()]`, i.e. for
each feature id in ascending order, the first row of that id attaining the
minimal `s2cloudles`. -/
def minCloudSelect (rows : List ResultRow) : List ResultRow :=
  (groupIds rows).filterMap (fun i => argminCloud (rows.filter (fun r => r.fid == i)))

/-- The rows contributed to the left merge by one AOI feature: each result
row of the feature's id, or one row with null image columns when the feature
has none. -/
def mergeBlock (rows : List ResultRow) (f : AoiFeature) : List OutputRow :=
  let matchRows := rows.filter (fun r => r.fid == f.fid)
  if matchRows.isEmpty then [⟨f.fid, f.attr, none, none, none⟩]
  else matchRows.map (fun r => ⟨f.fid, f.attr, some r.image_link, r.image_date, some r.s2cloudles⟩)

/-- `self.aoi.merge(results_df, on=self.id_col, how="left")`: every AOI row
is paired with each result row of the same id, in order; an AOI row with no
matching result row yields one row with null image columns. -/
def leftMerge (aoi : List AoiFeature) (rows : List ResultRow) : List OutputRow :=
  aoi.flatMap (mergeBlock rows)

/-- `≤` on nullable dates with nulls last, as in `sort_values` (pandas puts
`NaN` last). -/
def optDateLe : Option Nat → Option Nat → Bool
  | _, none => true
  | none, some _ => false
  | some x, some y => decide (x ≤ y)

/-- The `sort_values(by=[id_col, "image_date"], ascending=True)` comparison
on an (id, date) key: by feature id, then by date with nulls last. -/
def fidDateLe (af : Int) (ad : Option Nat) (bf : Int) (bd : Option Nat) : Bool :=
  if af = bf then optDateLe ad bd else decide (af < bf)

/-- The `sort_values` comparison on output rows. -/
def outRowLe (a b : OutputRow) : Bool :=
  fidDateLe a.fid a.image_date b.fid b.image_date

/-- The `sort_values` comparison on output rows, as a relation. -/
def outRowLeP (a b : OutputRow) : Prop :=
  outRowLe a b = true

instance : DecidableRel outRowLeP := fun a b =>
  inferInstanceAs (Decidable (outRowLe a b = true))

/-- `FindS2._results_to_gdf`: optional minimum-cloud selection, left merge
onto the AOI table, and sort by `(id, image_date)` (a stable sort models
`sort_values`; only the ordering matters to the claims below). -/
def results_to_gdf (min_cloud_only : Bool) (aoi : List AoiFeature)
    (result_list : List ResultRow) : List OutputRow :=
  let results_df := if min_cloud_only then minCloudSelect result_list else result_list
  List.insertionSort outRowLeP (leftMerge aoi results_df)

/-- `FindS2.find_image_links` (src/ceda_s2/find.py lines 534-562) from the
point where the candidate links are in hand: `img_links` is the
`all_img_list` output (tile lookup and HTTP crawling are collaborators),
the optional whole-tile cloud pre-filter is applied (it can raise, see
`filter_overall_cloud`), the per-feature search runs, and when the search
produced no result rows at all the method returns `None` (modelled `.ok
none`) instead of a table. -/
def find_image_links (check_img_cloud : Bool) (tile_cloud_max : ℚ)
    (xmlOf : String → Option String) (min_cloud_only : Bool)
    (featureLinks : List String → AoiFeature → List String)
    (validate : AoiFeature → String → ValidateResult)
    (extractDate : String → Option Nat) (aoi : List AoiFeature)
    (img_links : List String) : Except String (Option (List OutputRow)) :=
  match (if check_img_cloud then
      overall_cloud_check_all check_img_cloud tile_cloud_max xmlOf img_links
    else .ok img_links) with
  | .error e => .error e
  | .ok links =>
    let result_list := find_images_per_feature (featureLinks links) validate extractDate aoi
    if result_list.isEmpty then .ok none
    else .ok (some (results_to_gdf min_cloud_only aoi result_list))

end FindS2

namespace FindS1

/-! ## File name grammar of `FindS1` (src/ceda_s1/find.py)

`img_link.split("/")[-1].split("_")` with `parts[2]` the relative orbit
number (`int(...)`) and `parts[3]` the pass direction (`asc`/`desc`).  The
theorems below only apply these to well-formed links, matching the archive
grammar, where `int(parts[2])` cannot raise. -/

/-- `img_link.split("/")[-1]`: the file name part of a link. -/
def fileNamePart (link : String) : String :=
  ((splitOnChar '/' link).reverse).headD ""

/-- The underscore-delimited tokens of the file name. -/
def linkParts (link : String) : List String :=
  splitOnChar '_' (fileNamePart link)

/-- `int(parts[2])`: the relative orbit number of a link (well-formed links
only; on other input `int` would raise where this returns 0). -/
def orbitNumber (link : String) : Int :=
  ((strToNat? ((linkParts link).getD 2 "")).map (fun n => (n : Int))).getD 0

/-- `str.upper(parts[3])`: the pass direction token of a link. -/
def orbitType (link : String) : String :=
  strToUpper ((linkParts link).getD 3 "")

/-! ## `FindS1._count_orbits` (src/ceda_s1/find.py lines 148-182)

Builds one insertion-ordered counting dict per pass direction and sorts each
by count descending (`sorted(..., key=item[1], reverse=True)`, a stable
sort). -/

/-- Increment the count of a key in an insertion-ordered counting dict,
appending a new key with count 1 at the end. -/
def bumpKey : List (Int × Nat) → Int → List (Int × Nat)
  | [], k => [(k, 1)]
  | (k', n) :: rest, k =>
    if k' = k then (k', n + 1) :: rest else (k', n) :: bumpKey rest k

/-- The loop of `_count_orbits`: accumulate the ascending and descending
counting dicts over the image list. -/
def countOrbitsRaw (img_list : List String) : List (Int × Nat) × List (Int × Nat) :=
  img_list.foldl
    (fun acc img_link =>
      if orbitType img_link = "ASC" then (bumpKey acc.1 (orbitNumber img_link), acc.2)
      else if orbitType img_link = "DESC" then (acc.1, bumpKey acc.2 (orbitNumber img_link))
      else acc)
    ([], [])

/-- The `sorted(..., key=lambda item: item[1], reverse=True)` order on dict
entries: count descending. -/
def countGe (a b : Int × Nat) : Prop :=
  b.2 ≤ a.2

instance : DecidableRel countGe := fun a b => Nat.decLe b.2 a.2

instance : IsTotal (Int × Nat) countGe := ⟨fun a b => Nat.le_total b.2 a.2⟩

instance : IsTrans (Int × Nat) countGe := ⟨fun _ _ _ h1 h2 => Nat.le_trans h2 h1⟩

/-- The descending-by-count stable sort applied to both dicts; Python
`sorted` is stable, as is `insertionSort`. -/
def count_orbits (img_list : List String) : List (Int × Nat) × List (Int × Nat) :=
  let raw := countOrbitsRaw img_list
  (List.insertionSort countGe raw.1, List.insertionSort countGe raw.2)

/-! ## `FindS1._spatial_check_images` (src/ceda_s1/find.py lines 184-209)

Takes `bounds = aoi_gdf.bounds.values[0]` — the bounds of the FIRST feature
of the AOI file — and keeps an image iff the window of the image raster at
those bounds reads back with `arr.shape[1] > 0 and arr.shape[2] > 0`; a read
exception excludes the image and the loop continues.  An empty AOI file
would raise `IndexError` at the `values[0]` access. -/

/-- The bounding box of one AOI feature (minx, miny, maxx, maxy). -/
abbrev Bounds := ℚ × ℚ × ℚ × ℚ

/-- `FindS1._spatial_check_images`.  `readShape` returns the
`(arr.shape[1], arr.shape[2])` of the window read of an image at given
bounds, `none` when the read raised (caught, image skipped). -/
def spatial_check_images (readShape : String → Bounds → Option (Nat × Nat))
    (aoi : List Bounds) (img_list : List String) : Except String (List String) :=
  match aoi.head? with
  | none => .error "IndexError: index 0 is out of bounds"
  | some bounds =>
    .ok (img_list.filter (fun img_link =>
      match readShape img_link bounds with
      | none => false
      | some (h, w) => decide (0 < h) && decide (0 < w)))

/-! ## `FindS1._find_largest_region` (src/ceda_s1/find.py lines 211-230)

`scipy.ndimage.label` with the default structuring element labels the
4-connected components of a binary image; `np.bincount` of the labels
(background dropped) and `max` give the size in pixels of the largest
connected region, or 0 when the image has no foreground pixel.  The
labelling is embedded as an executable minimum-label propagation over the
grid: every foreground cell starts with a unique positive label and
repeatedly takes the minimum of its own and its foreground 4-neighbours'
labels; after as many sweeps as there are cells the labels are constant on
each 4-connected component and distinct across components. -/

/-- A binary image: a rectangular grid of booleans (foreground = `true`). -/
abbrev BinaryImage := List (List Bool)

/-- Foreground test of a cell, `false` outside the grid. -/
def gridGet (g : BinaryImage) (r c : Nat) : Bool :=
  (g.getD r []).getD c false

/-- The label of a cell, 0 (background) outside the grid. -/
def cellLabel (labels : List (List Nat)) (r c : Nat) : Nat :=
  (labels.getD r []).getD c 0

/-- The width bound used to make initial labels unique. -/
def gridWidth (g : BinaryImage) : Nat :=
  (g.map List.length).foldl max 0

/-- Initial labelling: each foreground cell gets the unique positive label
`r * gridWidth + c + 1`, background cells 0. -/
def initLabels (g : BinaryImage) : List (List Nat) :=
  (List.range g.length).map (fun r =>
    (List.range (g.getD r []).length).map (fun c =>
      if gridGet g r c then r * gridWidth g + c + 1 else 0))

/-- Labels of the four neighbours of a cell (labels outside the grid are 0
and are filtered out as background below). -/
def neighborLabels (labels : List (List Nat)) (r c : Nat) : List Nat :=
  (if 0 < r then [cellLabel labels (r - 1) c] else []) ++
  [cellLabel labels (r + 1) c] ++
  (if 0 < c then [cellLabel labels r (c - 1)] else []) ++
  [cellLabel labels r (c + 1)]

/-- One propagation sweep: every foreground cell takes the minimum of its
own label and its foreground neighbours' labels. -/
def relabelStep (g : BinaryImage) (labels : List (List Nat)) : List (List Nat) :=
  (List.range g.length).map (fun r =>
    (List.range (g.getD r []).length).map (fun c =>
      if gridGet g r c then
        ((neighborLabels labels r c).filter (fun l => decide (0 < l))).foldl
          min (cellLabel labels r c)
      else 0))

/-- Iterate the propagation sweep. -/
def iterLabels (g : BinaryImage) : Nat → List (List Nat) → List (List Nat)
  | 0, labels => labels
  | n + 1, labels => iterLabels g n (relabelStep g labels)

/-- `FindS1._find_largest_region`: 0 when the binary image has no foreground
pixel, otherwise the pixel count of the largest 4-connected foreground
region (`label`, `bincount`, `max` in the source). -/
def find_largest_region (g : BinaryImage) : Nat :=
  if !(g.map (fun row => row.any id)).any id then 0
  else
    let labels := iterLabels g (g.length * gridWidth g + 1) (initLabels g)
    let fg := labels.flatten.filter (fun l => decide (0 < l))
    ((fg.dedup).map (fun lab => fg.count lab)).foldl max 0

/-! ## `FindS1._filter_nodata` (src/ceda_s1/find.py lines 232-260)

Again takes the bounds of the FIRST AOI feature, reads the image window,
builds `binary_image = (arr[1] == no_data_value)` from the second band of
the window, and retains the image iff
`largest_region <= self.max_no_data_patch`; a read exception excludes the
image and the loop continues. -/

/-- `FindS1._filter_nodata`.  `readBand` returns the raster's nodata value
and the `arr[1]` band of the window read at given bounds, `none` when the
read raised. -/
def filter_nodata (readBand : String → Bounds → Option (Int × Window))
    (max_no_data_patch : Nat) (aoi : List Bounds) (img_list : List String) :
    Except String (List String) :=
  match aoi.head? with
  | none => .error "IndexError: index 0 is out of bounds"
  | some bounds =>
    .ok (img_list.filter (fun img_link =>
      match readBand img_link bounds with
      | none => false
      | some (no_data_value, band) =>
        let binary_image := band.map (fun row => row.map (fun v => v == no_data_value))
        decide (find_largest_region binary_image ≤ max_no_data_patch)))

/-! ## `FindS1._filter_image_extent` (src/ceda_s1/find.py lines 262-303)

Runs the spatial check, then the nodata patch filter, counts orbits on the
survivors, and when `filter_orbits` is set takes
`list(sorted_asc_orbits.keys())[0]` and `list(sorted_desc_orbits.keys())[0]`
— the single top-count orbit of each pass direction — and filters the list
to those two orbit numbers.  When a direction has no surviving image its
dict is empty and the `[0]` access raises an uncaught `IndexError`. -/

/-- The two filter passes of `_filter_image_extent` before orbit counting. -/
def surviving_images (readShape : String → Bounds → Option (Nat × Nat))
    (readBand : String → Bounds → Option (Int × Window)) (max_no_data_patch : Nat)
    (aoi : List Bounds) (img_list : List String) : Except String (List String) :=
  match spatial_check_images readShape aoi img_list with
  | .error e => .error e
  | .ok l1 => filter_nodata readBand max_no_data_patch aoi l1

/-- `FindS1._filter_image_extent`. -/
def filter_image_extent (readShape : String → Bounds → Option (Nat × Nat))
    (readBand : String → Bounds → Option (Int × Window)) (max_no_data_patch : Nat)
    (filter_orbits : Bool) (aoi : List Bounds) (img_list : List String) :
    Except String (List String) :=
  match surviving_images readShape readBand max_no_data_patch aoi img_list with
  | .error e => .error e
  | .ok l2 =>
    let sorted := count_orbits l2
    if filter_orbits then
      match sorted.1.head?, sorted.2.head? with
      | some use_asc, some use_desc =>
        .ok (l2.filter (fun x =>
          orbitNumber x == use_asc.1 || orbitNumber x == use_desc.1))
      | _, _ => .error "IndexError: list index out of range"
    else
      .ok l2

end FindS1

namespace Main

/-! ## `get_images` (src/main.py lines 112-214)

The search-and-merge pipeline around `FindS2.find_image_links`: decide
whether a new search is needed, split a partially resolved input into
resolved and unresolved rows, search only the unresolved rows, and when the
search found images concatenate the new rows with the previously resolved
rows, sort by `(id, image_date)` and write the result.  Plotting and
downloading are collaborators and are not modelled beyond the `ValueError`
branch that guards them.  `find_image_links` returning `None` makes
`image_features.empty` raise an uncaught `AttributeError`. -/

/-- One row of the search-features table: the `id` column, an abstract
geometry identity, and the three nullable image columns.  The `image_link`
column may be absent from the file; that is tracked by the `hasLinkCol`
argument of `get_images` (when it is `false` the nullable fields of the
input rows are vacuous). -/
structure SearchRow where
  fid : Int
  geom : Nat
  image_link : Option String
  image_date : Option Nat
  s2cloudles : Option Int
deriving DecidableEq, Repr

/-- Dropping the `image_link`, `image_date`, `s2cloudles` columns of a row. -/
def clearImgCols (r : SearchRow) : SearchRow :=
  { r with image_link := none, image_date := none, s2cloudles := none }

/-- `~search_features.geometry.duplicated()`: keep the first row of each
geometry. -/
def dedupGeomGo (seen : List Nat) : List SearchRow → List SearchRow
  | [] => []
  | r :: rs =>
    if r.geom ∈ seen then dedupGeomGo seen rs
    else r :: dedupGeomGo (r.geom :: seen) rs

/-- Keep the first row of each geometry value. -/
def dedupGeom (rows : List SearchRow) : List SearchRow :=
  dedupGeomGo [] rows

/-- The `sort_values(by=["id", "image_date"])` comparison on search rows:
by id, then by date with nulls last. -/
def searchRowLe (a b : SearchRow) : Bool :=
  FindS2.fidDateLe a.fid a.image_date b.fid b.image_date

/-- The `sort_values` comparison on search rows, as a relation. -/
def searchRowLeP (a b : SearchRow) : Prop :=
  searchRowLe a b = true

instance : DecidableRel searchRowLeP := fun a b =>
  inferInstanceAs (Decidable (searchRowLe a b = true))

/-- `get_images` (src/main.py lines 112-214) restricted to its decision and
merge logic.  `search` stands for `FindS2(...).find_image_links()` applied
to the features handed to the finder (`none` models the method returning
`None`); `hasLinkCol` records whether the input file has an `image_link`
column.  The returned value is `.ok (some rows)` when a merged result layer
is written, `.ok none` when no layer is written, and `.error` when the
Python run raises. -/
def get_images (search : List SearchRow → Option (List SearchRow))
    (hasLinkCol full_search plot_images download_images : Bool)
    (search_features0 : List SearchRow) : Except String (Option (List SearchRow)) :=
  let new_search := full_search || !hasLinkCol
    || search_features0.any (fun r => r.image_link.isNone)
  let dropForFull := full_search && hasLinkCol
  let search_features :=
    if dropForFull then dedupGeom (search_features0.map clearImgCols)
    else search_features0
  let hasLinkCol1 := hasLinkCol && !dropForFull
  if new_search then
    let resolvedExists := hasLinkCol1
      && decide (0 < (search_features.countP (fun r => r.image_link.isSome)))
    let existing_search : Option (List SearchRow) :=
      if resolvedExists then some (search_features.filter (fun r => r.image_link.isSome))
      else none
    let to_search :=
      if resolvedExists then
        (search_features.filter (fun r => r.image_link.isNone)).map clearImgCols
      else search_features
    match search to_search with
    | none => .error "AttributeError: NoneType object has no attribute empty"
    | some image_features =>
      let image_count := (image_features.filter (fun r => r.image_link.isSome)).length
      if 0 < image_count then
        let merged :=
          match existing_search with
          | some ex => image_features ++ ex
          | none => image_features
        .ok (some (List.insertionSort searchRowLeP merged))
      else
        .ok none
  else
    if !plot_images && !download_images then
      .error "ValueError: need plot or download arguments for existing image links"
    else
      -- existing fully populated links are reused; no result layer is written
      .ok none

end Main

/-! ## Shared helper lemmas -/

theorem optDateLe_trans (a b c : Option Nat) (h1 : FindS2.optDateLe a b = true)
    (h2 : FindS2.optDateLe b c = true) : FindS2.optDateLe a c = true := by
  cases a <;> cases b <;> cases c <;> simp_all [FindS2.optDateLe]
  omega

theorem optDateLe_total (a b : Option Nat) :
    (FindS2.optDateLe a b || FindS2.optDateLe b a) = true := by
  cases a <;> cases b <;> simp_all [FindS2.optDateLe]
  omega

theorem fidDateLe_trans (af bf cf : Int) (ad bd cd : Option Nat)
    (h1 : FindS2.fidDateLe af ad bf bd = true) (h2 : FindS2.fidDateLe bf bd cf cd = true) :
    FindS2.fidDateLe af ad cf cd = true := by
  unfold FindS2.fidDateLe at *
  by_cases hab : af = bf
  · by_cases hbc : bf = cf
    · have hac : af = cf := hab.trans hbc
      rw [if_pos hab] at h1
      rw [if_pos hbc] at h2
      rw [if_pos hac]
      exact optDateLe_trans _ _ _ h1 h2
    · have hac : ¬ af = cf := by rw [hab]; exact hbc
      rw [if_neg hbc] at h2
      rw [if_neg hac, hab]
      exact h2
  · by_cases hbc : bf = cf
    · have hac : ¬ af = cf := by rw [← hbc]; exact hab
      rw [if_neg hab] at h1
      rw [if_neg hac, ← hbc]
      exact h1
    · rw [if_neg hab] at h1
      rw [if_neg hbc] at h2
      have hlt : af < cf := lt_trans (of_decide_eq_true h1) (of_decide_eq_true h2)
      rw [if_neg (ne_of_lt hlt)]
      exact decide_eq_true hlt

theorem fidDateLe_total (af bf : Int) (ad bd : Option Nat) :
    (FindS2.fidDateLe af ad bf bd || FindS2.fidDateLe bf bd af ad) = true := by
  unfold FindS2.fidDateLe
  by_cases hab : af = bf
  · rw [if_pos hab, if_pos hab.symm]
    exact optDateLe_total _ _
  · have hba : ¬ bf = af := fun h => hab h.symm
    rw [if_neg hab, if_neg hba]
    rcases lt_or_gt_of_ne (show af ≠ bf from hab) with h | h
    · simp [h]
    · simp [h]

/-! ## Claim C6: the no-data gate boundary is exclusive of pass -/

/-- C6.  For every (feature, candidate) pair whose window read succeeds on a
non-empty window, `_no_data_filter` returns `False` (the pair is rejected)
exactly when the nodata percentage of the feature window is greater than or
equal to the configured threshold; in particular a percentage equal to the
threshold is rejected. -/
theorem c6_no_data_threshold_boundary (nodata : Int) (w : Window) (nodata_max : ℚ)
    (_hw : 0 < windowSize w) :
    FindS2.no_data_filter nodata w nodata_max = false ↔
      nodata_max ≤ FindS2.nodataPercent nodata w := by
  simp [FindS2.no_data_filter, not_lt]

/-- C6 witness: a 2-by-2 window with one of four pixels nodata gives exactly
the 25 percent threshold and is rejected. -/
theorem c6_no_data_threshold_boundary_witness :
    0 < windowSize [[0, 5], [5, 5]] ∧
      (FindS2.no_data_filter 0 [[0, 5], [5, 5]] 25 = false ↔
        (25 : ℚ) ≤ FindS2.nodataPercent 0 [[0, 5], [5, 5]]) :=
  ⟨by decide, c6_no_data_threshold_boundary 0 [[0, 5], [5, 5]] 25 (by decide)⟩

/-! ## Claim C2: the per-feature cloud gate and the zero-percent slip -/

/-- C2.  A candidate window with zero cloudy pixels has cloud percentage 0,
strictly below the threshold 10, so the claim says the pair passes with
score 0; but `_s2_cloudless_filter` returns the float `0.0`, which is falsy,
so `_validate_feature_image` returns `False` and `_find_images_per_feature`
records no row for the pair. -/
theorem c2_zero_cloud_percent_rejected :
    FindS2.cloudPercent [[0, 0], [0, 0]] = 0 ∧
    FindS2.cloudPercent [[0, 0], [0, 0]] < 10 ∧
    FindS2.s2_cloudless_filter (some [[0, 0], [0, 0]]) 10 = .flt 0 ∧
    FindS2.validate_feature_image true true
      (FindS2.s2_cloudless_filter (some [[0, 0], [0, 0]]) 10) = .fls ∧
    FindS2.find_images_per_feature (fun _ => ["imgA"])
      (fun _ _ => FindS2.validate_feature_image true true
        (FindS2.s2_cloudless_filter (some [[0, 0], [0, 0]]) 10))
      (fun _ => some 20230601) [⟨1, 0, 0⟩] = [] := by
  have hc : countCells [[0, 0], [0, 0]] (fun v => v == 1 || v == 2) = 0 := by decide
  have hpct : FindS2.cloudPercent [[0, 0], [0, 0]] = 0 := by
    simp [FindS2.cloudPercent, hc]
  have hfilt : FindS2.s2_cloudless_filter (some [[0, 0], [0, 0]]) 10 = .flt 0 := by
    rw [FindS2.s2_cloudless_filter]
    simp only [hpct]
    norm_num
  have hval : FindS2.validate_feature_image true true (.flt (0 : ℚ)) = .fls := by
    simp [FindS2.validate_feature_image, FindS2.pyTruthy]
  refine ⟨hpct, by rw [hpct]; norm_num, hfilt, by rw [hfilt]; exact hval, ?_⟩
  rw [hfilt]
  simp [FindS2.find_images_per_feature, hval, FindS2.vTruthy]

/-! ## Claim C5: a missing XML field aborts the run -/

/-- C5.  `_extract_xml_cloud` catches the missing-field error and returns
`None`, but `_filter_overall_cloud` then evaluates `None * 100`, raising an
uncaught `TypeError`, and the list comprehension of
`_overall_cloud_check_all` aborts without reaching the remaining
candidates. -/
theorem c5_missing_xml_field_aborts :
    FindS2.extract_xml_cloud (some "OTHER_FIELD: 5") = none ∧
    FindS2.filter_overall_cloud true 20 (some "OTHER_FIELD: 5") =
      .error "TypeError: unsupported operand type NoneType * int" ∧
    FindS2.overall_cloud_check_all true 20
      (fun link => if link = "badImg" then some "OTHER_FIELD: 5"
        else some "ARCSI_CLOUD_COVER: 0.1") ["badImg", "goodImg"] =
      .error "TypeError: unsupported operand type NoneType * int" :=
  ⟨rfl, rfl, rfl⟩

/-! ## Claim C7: deduplication of candidate URLs -/

/-- C7 counterexample.  The same href appearing on two date listing pages
survives in duplicate in `all_img_list`: deduplication happens only inside
`_extract_links` (per page), while `all_img_list` extends a plain list. -/
theorem c7_counterexample_duplicate_across_pages :
    FindS2.all_img_list [] [["x_stdsref.tif?download=1"], ["x_stdsref.tif?download=1"]] =
      ["x_stdsref.tif?download=1", "x_stdsref.tif?download=1"] ∧
    ¬ (FindS2.all_img_list []
        [["x_stdsref.tif?download=1"], ["x_stdsref.tif?download=1"]]).Nodup := by
  refine ⟨rfl, ?_⟩
  decide

/-- C7 amended.  Deduplication is per listing page: the candidate list
returned by `_extract_links` for one page contains no duplicate URL, for any
tile list and any page content. -/
theorem c7_amended_per_page_dedup (tile_list page_hrefs : List String) :
    (FindS2.extract_links tile_list page_hrefs).Nodup :=
  List.nodup_dedup _

/-! ## Claim C10: only the first AOI feature is ever read -/

/-- C10.  Both the spatial-extent check and the nodata patch filter of
`FindS1` read only `aoi_gdf.bounds.values[0]`, the bounds of the first
feature of the AOI file; replacing every feature after the first changes
neither their output nor the output of the whole `_filter_image_extent`
pipeline. -/
theorem c10_only_first_feature_bounds
    (readShape : String → FindS1.Bounds → Option (Nat × Nat))
    (readBand : String → FindS1.Bounds → Option (Int × Window))
    (max_no_data_patch : Nat) (filter_orbits : Bool) (b : FindS1.Bounds)
    (rest1 rest2 : List FindS1.Bounds) (img_list : List String) :
    FindS1.spatial_check_images readShape (b :: rest1) img_list =
      FindS1.spatial_check_images readShape (b :: rest2) img_list ∧
    FindS1.filter_nodata readBand max_no_data_patch (b :: rest1) img_list =
      FindS1.filter_nodata readBand max_no_data_patch (b :: rest2) img_list ∧
    FindS1.filter_image_extent readShape readBand max_no_data_patch filter_orbits
        (b :: rest1) img_list =
      FindS1.filter_image_extent readShape readBand max_no_data_patch filter_orbits
        (b :: rest2) img_list :=
  ⟨rfl, rfl, rfl⟩

/-! ## Claim C4: orbit disambiguation error path -/

/-- C4 counterexample.  With orbit filtering enabled, an image list whose
survivors are all ascending leaves the descending counting dict empty, and
`list(sorted_desc_orbits.keys())[0]` raises an `IndexError` — the code does
not return null (zero images) for the direction without a satisfying
group. -/
theorem c4_counterexample_no_desc_group_raises :
    FindS1.filter_image_extent (fun _ _ => some (1, 1)) (fun _ _ => some (0, [[1]]))
      10 true [(0, 0, 1, 1)] ["p/S1B_20180601_132_asc_a_SpkRL.tif"] =
      .error "IndexError: list index out of range" := rfl

/-- C4 amended.  `_filter_image_extent` first filters all images by the
AOI-window read and the nodata patch check, then ranks the orbit groups of
each pass direction by descending count of SURVIVING images, and selects the
single top-ranked group per direction with no containment re-verification or
retry; when both directions have a surviving group the result is the
survivors of those two orbits, and the selected group of each direction has
a maximal surviving-image count in its direction.  (When a direction has no
surviving group the code raises `IndexError` instead of returning null, see
the counterexample.) -/
theorem c4_amended_top_count_group_selected
    (readShape : String → FindS1.Bounds → Option (Nat × Nat))
    (readBand : String → FindS1.Bounds → Option (Int × Window))
    (max_no_data_patch : Nat) (aoi : List FindS1.Bounds) (img_list : List String)
    (l2 : List String) (a d : Int × Nat) (restA restD : List (Int × Nat))
    (hsurv : FindS1.surviving_images readShape readBand max_no_data_patch aoi img_list = .ok l2)
    (hasc : (FindS1.count_orbits l2).1 = a :: restA)
    (hdesc : (FindS1.count_orbits l2).2 = d :: restD) :
    FindS1.filter_image_extent readShape readBand max_no_data_patch true aoi img_list =
      .ok (l2.filter (fun x =>
        FindS1.orbitNumber x == a.1 || FindS1.orbitNumber x == d.1)) ∧
    (∀ p ∈ (FindS1.count_orbits l2).1, p.2 ≤ a.2) ∧
    (∀ p ∈ (FindS1.count_orbits l2).2, p.2 ≤ d.2) := by
  have hs1 : List.Sorted FindS1.countGe (FindS1.count_orbits l2).1 :=
    List.sorted_insertionSort FindS1.countGe (FindS1.countOrbitsRaw l2).1
  have hs2 : List.Sorted FindS1.countGe (FindS1.count_orbits l2).2 :=
    List.sorted_insertionSort FindS1.countGe (FindS1.countOrbitsRaw l2).2
  refine ⟨?_, ?_, ?_⟩
  · simp only [FindS1.filter_image_extent, hsurv, hasc, hdesc, List.head?_cons,
      if_true]
  · rw [hasc] at hs1 ⊢
    rw [List.sorted_cons] at hs1
    intro p hp
    rcases List.mem_cons.mp hp with h | h
    · exact h ▸ le_refl _
    · exact hs1.1 p h
  · rw [hdesc] at hs2 ⊢
    rw [List.sorted_cons] at hs2
    intro p hp
    rcases List.mem_cons.mp hp with h | h
    · exact h ▸ le_refl _
    · exact hs2.1 p h

/-- C4 amended witness: four images (asc orbit 30 twice, asc orbit 132 once,
desc orbit 125 once), every read succeeding with a clean window; orbit 30 is
the top-count ascending group and 125 the only descending group. -/
theorem c4_amended_top_count_group_selected_witness :
    FindS1.surviving_images (fun _ _ => some (1, 1)) (fun _ _ => some (0, [[1]])) 10
      [(0, 0, 1, 1)]
      ["p/S1B_20180601_132_asc_a_SpkRL.tif", "p/S1B_20180601_125_desc_a_SpkRL.tif",
        "p/S1B_20180601_30_asc_a_SpkRL.tif", "p/S1B_20180601_30_asc_b_SpkRL.tif"] =
      .ok ["p/S1B_20180601_132_asc_a_SpkRL.tif", "p/S1B_20180601_125_desc_a_SpkRL.tif",
        "p/S1B_20180601_30_asc_a_SpkRL.tif", "p/S1B_20180601_30_asc_b_SpkRL.tif"] ∧
    (FindS1.count_orbits
        ["p/S1B_20180601_132_asc_a_SpkRL.tif", "p/S1B_20180601_125_desc_a_SpkRL.tif",
          "p/S1B_20180601_30_asc_a_SpkRL.tif", "p/S1B_20180601_30_asc_b_SpkRL.tif"]).1 =
      (30, 2) :: [(132, 1)] ∧
    (FindS1.count_orbits
        ["p/S1B_20180601_132_asc_a_SpkRL.tif", "p/S1B_20180601_125_desc_a_SpkRL.tif",
          "p/S1B_20180601_30_asc_a_SpkRL.tif", "p/S1B_20180601_30_asc_b_SpkRL.tif"]).2 =
      (125, 1) :: [] ∧
    (FindS1.filter_image_extent (fun _ _ => some (1, 1)) (fun _ _ => some (0, [[1]])) 10
        true [(0, 0, 1, 1)]
        ["p/S1B_20180601_132_asc_a_SpkRL.tif", "p/S1B_20180601_125_desc_a_SpkRL.tif",
          "p/S1B_20180601_30_asc_a_SpkRL.tif", "p/S1B_20180601_30_asc_b_SpkRL.tif"] =
      .ok (["p/S1B_20180601_132_asc_a_SpkRL.tif", "p/S1B_20180601_125_desc_a_SpkRL.tif",
          "p/S1B_20180601_30_asc_a_SpkRL.tif", "p/S1B_20180601_30_asc_b_SpkRL.tif"].filter
        (fun x => FindS1.orbitNumber x == 30 || FindS1.orbitNumber x == 125)) ∧
      (∀ p ∈ (FindS1.count_orbits
          ["p/S1B_20180601_132_asc_a_SpkRL.tif", "p/S1B_20180601_125_desc_a_SpkRL.tif",
            "p/S1B_20180601_30_asc_a_SpkRL.tif", "p/S1B_20180601_30_asc_b_SpkRL.tif"]).1,
        p.2 ≤ 2) ∧
      (∀ p ∈ (FindS1.count_orbits
          ["p/S1B_20180601_132_asc_a_SpkRL.tif", "p/S1B_20180601_125_desc_a_SpkRL.tif",
            "p/S1B_20180601_30_asc_a_SpkRL.tif", "p/S1B_20180601_30_asc_b_SpkRL.tif"]).2,
        p.2 ≤ 1)) :=
  ⟨rfl, rfl, rfl,
    c4_amended_top_count_group_selected _ _ _ _ _ _ (30, 2) (125, 1) [(132, 1)] []
      rfl rfl rfl⟩

/-! ## Claim C9: the Sentinel-1 nodata patch gate -/

/-- C9.  For every image whose window read succeeds, `_filter_nodata`
retains the image exactly when the pixel count of the largest connected
nodata region inside the AOI window is at most the configured
maximum-patch-size threshold: rejection happens exactly on strict excess,
an image whose largest patch equals the threshold is retained, and the
decision reads nothing but the largest-region size (in particular not the
overall nodata fraction). -/
theorem c9_nodata_patch_threshold
    (readBand : String → FindS1.Bounds → Option (Int × Window))
    (max_no_data_patch : Nat) (b : FindS1.Bounds) (rest : List FindS1.Bounds)
    (img_list : List String) (img : String) (no_data_value : Int) (band : Window)
    (hread : readBand img b = some (no_data_value, band)) :
    ∃ kept, FindS1.filter_nodata readBand max_no_data_patch (b :: rest) img_list =
        .ok kept ∧
      (img ∈ kept ↔ img ∈ img_list ∧
        FindS1.find_largest_region
            (band.map (fun row => row.map (fun v => v == no_data_value))) ≤
          max_no_data_patch) := by
  refine ⟨_, rfl, ?_⟩
  simp only [List.mem_filter, hread, decide_eq_true_eq]

/-- C9 witness: Scenario D of the specification — a 4-by-5 window whose
first three rows are a 15-pixel nodata blob, against threshold 10. -/
theorem c9_nodata_patch_threshold_witness :
    (fun (_ : String) (_ : FindS1.Bounds) =>
        some ((0 : Int),
          ([[0, 0, 0, 0, 0], [0, 0, 0, 0, 0], [0, 0, 0, 0, 0], [1, 1, 1, 1, 1]] : Window)))
      "img" (0, 0, 1, 1) = some (0, [[0, 0, 0, 0, 0], [0, 0, 0, 0, 0], [0, 0, 0, 0, 0],
        [1, 1, 1, 1, 1]]) ∧
    ∃ kept, FindS1.filter_nodata
        (fun _ _ => some ((0 : Int),
          ([[0, 0, 0, 0, 0], [0, 0, 0, 0, 0], [0, 0, 0, 0, 0], [1, 1, 1, 1, 1]] : Window)))
        10 [(0, 0, 1, 1)] ["img"] = .ok kept ∧
      ("img" ∈ kept ↔ "img" ∈ ["img"] ∧
        FindS1.find_largest_region
            (([[0, 0, 0, 0, 0], [0, 0, 0, 0, 0], [0, 0, 0, 0, 0],
              [1, 1, 1, 1, 1]] : Window).map
              (fun row => row.map (fun v => v == (0 : Int)))) ≤ 10) :=
  ⟨rfl, c9_nodata_patch_threshold _ 10 (0, 0, 1, 1) [] ["img"] "img" 0 _ rfl⟩

/-! ## Claim C1: total per-feature coverage of the search output -/

/-- C1 counterexample.  A non-empty AOI (one feature) with a candidate link
present but zero passing (feature, candidate) pairs: `find_image_links`
returns Python `None` (modelled `.ok none`) — no rows at all — rather than
one row with null image fields for the feature. -/
theorem c1_counterexample_no_results_returns_none :
    FindS2.find_image_links false 100 (fun _ => none) false (fun _ _ => ["imgA"])
      (fun _ _ => .fls) (fun _ => none) [⟨1, 0, 0⟩] ["imgA"] = .ok none := rfl

/-! ## Claim C3: incremental re-run merge -/

/-- C3 counterexample.  Input with one resolved feature (id 1) and one
unresolved feature (id 2); the re-search of the unresolved feature finds no
images, so `find_image_links` returns `None` and `get_images` raises
`AttributeError` at `image_features.empty` — the previously resolved row
does not appear in any output. -/
theorem c3_counterexample_empty_research_crashes :
    Main.get_images (fun _ => none) true false false false
      [⟨1, 0, some "L", some 1, some 3⟩, ⟨2, 1, none, none, none⟩] =
      .error "AttributeError: NoneType object has no attribute empty" := rfl

/-! ## Claim C8: keep-minimum-cloud idempotence -/

theorem argminCloud_mem :
    ∀ (l : List FindS2.ResultRow) (m : FindS2.ResultRow),
      FindS2.argminCloud l = some m → m ∈ l := by
  intro l
  induction l with
  | nil => intro m h; simp [FindS2.argminCloud] at h
  | cons r rs ih =>
    intro m h
    rw [FindS2.argminCloud] at h
    cases hrec : FindS2.argminCloud rs with
    | none =>
      rw [hrec] at h
      injection h with h
      exact h ▸ List.mem_cons_self r rs
    | some m' =>
      rw [hrec] at h
      have h' : (if m'.s2cloudles < r.s2cloudles then some m' else some r) = some m := h
      by_cases hlt : m'.s2cloudles < r.s2cloudles
      · rw [if_pos hlt] at h'
        injection h' with h'
        exact List.mem_cons_of_mem r (h' ▸ ih m' hrec)
      · rw [if_neg hlt] at h'
        injection h' with h'
        exact h' ▸ List.mem_cons_self r rs

theorem filter_fid_of_nodup :
    ∀ (rows : List FindS2.ResultRow), (rows.map FindS2.ResultRow.fid).Nodup →
      ∀ r ∈ rows, rows.filter (fun x => x.fid == r.fid) = [r] := by
  intro rows
  induction rows with
  | nil => intro _ r hr; cases hr
  | cons x xs ih =>
    intro hnd r hr
    rw [List.map_cons, List.nodup_cons] at hnd
    rcases List.mem_cons.mp hr with heq | hmem
    · subst heq
      have hfx : List.filter (fun y => y.fid == r.fid) xs = [] := by
        apply List.filter_eq_nil_iff.mpr
        intro a ha hba
        have hae : a.fid = r.fid := by simpa using hba
        exact hnd.1 (hae ▸ List.mem_map_of_mem FindS2.ResultRow.fid ha)
      simp only [List.filter_cons, beq_self_eq_true, if_pos, hfx]
    · have hne : x.fid ≠ r.fid := fun he =>
        hnd.1 (he ▸ List.mem_map_of_mem FindS2.ResultRow.fid hmem)
      have hbx : (x.fid == r.fid) = false := by simpa using hne
      simp only [List.filter_cons, hbx, Bool.false_eq_true, if_false]
      exact ih hnd.2 r hmem

theorem filterMap_id_of_mem {α : Type} :
    ∀ (l : List α) (g : α → Option α), (∀ a ∈ l, g a = some a) → l.filterMap g = l := by
  intro l g
  induction l with
  | nil => intro _; rfl
  | cons x xs ih =>
    intro h
    simp only [List.filterMap_cons, h x (List.mem_cons_self x xs)]
    rw [ih (fun a ha => h a (List.mem_cons_of_mem x ha))]

/-- C8.  Applying the keep-minimum-cloud selection of `_results_to_gdf` to a
result list that already has exactly one row per feature id returns the same
result set (as a permutation: pandas reorders the rows by group key, but no
row is changed, added or dropped). -/
theorem c8_keep_minimum_cloud_idempotent (rows : List FindS2.ResultRow)
    (h : (rows.map FindS2.ResultRow.fid).Nodup) :
    (FindS2.minCloudSelect rows).Perm rows := by
  have hdedup : (rows.map FindS2.ResultRow.fid).dedup = rows.map FindS2.ResultRow.fid :=
    List.dedup_eq_self.mpr h
  have hstep : FindS2.minCloudSelect rows =
      (List.insertionSort (· ≤ ·) (rows.map FindS2.ResultRow.fid)).filterMap
        (fun i => FindS2.argminCloud (rows.filter (fun r => r.fid == i))) := by
    rw [FindS2.minCloudSelect, FindS2.groupIds, hdedup]
  rw [hstep]
  have hperm := List.perm_insertionSort (α := Int) (· ≤ ·) (rows.map FindS2.ResultRow.fid)
  refine (List.Perm.filterMap _ hperm).trans ?_
  rw [List.filterMap_map]
  have hpt : ∀ r ∈ rows,
      ((fun i => FindS2.argminCloud (rows.filter (fun x => x.fid == i))) ∘
        FindS2.ResultRow.fid) r = some r := by
    intro r hr
    show FindS2.argminCloud (rows.filter (fun x => x.fid == r.fid)) = some r
    rw [filter_fid_of_nodup rows h r hr]
    rfl
  rw [filterMap_id_of_mem rows _ hpt]

/-- C8 witness: two rows with distinct feature ids are returned unchanged
(up to order) by the minimum-cloud selection. -/
theorem c8_keep_minimum_cloud_idempotent_witness :
    (([⟨1, "a", some 20230601, 5⟩, ⟨2, "b", some 20230602, 3⟩] :
        List FindS2.ResultRow).map FindS2.ResultRow.fid).Nodup ∧
    (FindS2.minCloudSelect
        [⟨1, "a", some 20230601, 5⟩, ⟨2, "b", some 20230602, 3⟩]).Perm
      [⟨1, "a", some 20230601, 5⟩, ⟨2, "b", some 20230602, 3⟩] :=
  ⟨by decide, c8_keep_minimum_cloud_idempotent _ (by decide)⟩

/-! ## C1 helper lemmas on the left merge -/

theorem mergeBlock_fid (rows : List FindS2.ResultRow) (f : FindS2.AoiFeature)
    (o : FindS2.OutputRow) (ho : o ∈ FindS2.mergeBlock rows f) : o.fid = f.fid := by
  simp only [FindS2.mergeBlock] at ho
  split at ho
  · simp only [List.mem_singleton] at ho
    rw [ho]
  · rcases List.mem_map.mp ho with ⟨r, -, hr⟩
    rw [← hr]

theorem mergeBlock_length (rows : List FindS2.ResultRow) (f : FindS2.AoiFeature) :
    1 ≤ (FindS2.mergeBlock rows f).length := by
  simp only [FindS2.mergeBlock]
  split
  · simp
  · rename_i hne
    rw [List.length_map]
    have hnn : rows.filter (fun r => r.fid == f.fid) ≠ [] := by
      simpa [List.isEmpty_iff] using hne
    exact Nat.one_le_iff_ne_zero.mpr (fun h0 => hnn (List.length_eq_zero.mp h0))

theorem mergeBlock_of_no_match (rows : List FindS2.ResultRow) (f : FindS2.AoiFeature)
    (h : rows.filter (fun r => r.fid == f.fid) = []) :
    FindS2.mergeBlock rows f = [⟨f.fid, f.attr, none, none, none⟩] := by
  simp [FindS2.mergeBlock, h]

theorem leftMerge_cons (g : FindS2.AoiFeature) (rest : List FindS2.AoiFeature)
    (rows : List FindS2.ResultRow) :
    FindS2.leftMerge (g :: rest) rows =
      FindS2.mergeBlock rows g ++ FindS2.leftMerge rest rows := by
  rw [FindS2.leftMerge, FindS2.leftMerge, List.flatMap_cons]

theorem leftMerge_fid_mem (aoi : List FindS2.AoiFeature) (rows : List FindS2.ResultRow)
    (o : FindS2.OutputRow) (ho : o ∈ FindS2.leftMerge aoi rows) :
    o.fid ∈ aoi.map FindS2.AoiFeature.fid := by
  rw [FindS2.leftMerge] at ho
  rcases List.mem_flatMap.mp ho with ⟨g, hg, hgo⟩
  rw [mergeBlock_fid rows g o hgo]
  exact List.mem_map_of_mem _ hg

theorem leftMerge_count (aoi : List FindS2.AoiFeature) (rows : List FindS2.ResultRow)
    (f : FindS2.AoiFeature) (hf : f ∈ aoi) :
    1 ≤ ((FindS2.leftMerge aoi rows).filter (fun o => o.fid == f.fid)).length := by
  induction aoi with
  | nil => cases hf
  | cons g rest ih =>
    rw [leftMerge_cons, List.filter_append, List.length_append]
    rcases List.mem_cons.mp hf with heq | hf'
    · subst heq
      have hall : List.filter (fun o => o.fid == f.fid) (FindS2.mergeBlock rows f) =
          FindS2.mergeBlock rows f := by
        apply List.filter_eq_self.mpr
        intro o ho
        simp [mergeBlock_fid rows f o ho]
      have h1 : (List.filter (fun o => o.fid == f.fid)
          (FindS2.mergeBlock rows f)).length = (FindS2.mergeBlock rows f).length := by
        rw [hall]
      have h2 := mergeBlock_length rows f
      omega
    · have h3 := ih hf'
      omega

theorem leftMerge_filter_of_no_match :
    ∀ (aoi : List FindS2.AoiFeature) (rows : List FindS2.ResultRow)
      (f : FindS2.AoiFeature),
      (aoi.map FindS2.AoiFeature.fid).Nodup → f ∈ aoi →
      rows.filter (fun r => r.fid == f.fid) = [] →
      (FindS2.leftMerge aoi rows).filter (fun o => o.fid == f.fid) =
        [⟨f.fid, f.attr, none, none, none⟩] := by
  intro aoi
  induction aoi with
  | nil => intro rows f _ hf _; cases hf
  | cons g rest ih =>
    intro rows f hnd hf hnone
    rw [List.map_cons, List.nodup_cons] at hnd
    rw [leftMerge_cons, List.filter_append]
    rcases List.mem_cons.mp hf with heq | hf'
    · subst heq
      have hblock : List.filter (fun o => o.fid == f.fid) (FindS2.mergeBlock rows f) =
          [⟨f.fid, f.attr, none, none, none⟩] := by
        rw [mergeBlock_of_no_match rows f hnone]
        simp
      have htail : List.filter (fun o => o.fid == f.fid)
          (FindS2.leftMerge rest rows) = [] := by
        apply List.filter_eq_nil_iff.mpr
        intro o ho hb
        have hofid : o.fid = f.fid := by simpa using hb
        exact hnd.1 (hofid ▸ leftMerge_fid_mem rest rows o ho)
      rw [hblock, htail, List.append_nil]
    · have hgf : g.fid ≠ f.fid := fun he =>
        hnd.1 (he ▸ List.mem_map_of_mem FindS2.AoiFeature.fid hf')
      have hblock : List.filter (fun o => o.fid == f.fid)
          (FindS2.mergeBlock rows g) = [] := by
        apply List.filter_eq_nil_iff.mpr
        intro o ho hb
        have : o.fid = f.fid := by simpa using hb
        exact hgf ((mergeBlock_fid rows g o ho).symm.trans this)
      rw [hblock, List.nil_append]
      exact ih rows f hnd.2 hf' hnone

theorem minCloudSelect_subset (rows : List FindS2.ResultRow) (r : FindS2.ResultRow)
    (hr : r ∈ FindS2.minCloudSelect rows) : r ∈ rows := by
  rw [FindS2.minCloudSelect] at hr
  rcases List.mem_filterMap.mp hr with ⟨i, -, hfm⟩
  have hmem := argminCloud_mem _ _ hfm
  exact (List.mem_filter.mp hmem).1

/-- C1 amended.  When the per-feature search produced at least one result
row, `find_image_links` returns the merged table and every input feature
appears in it at least once; a feature with zero result rows contributes
exactly one row with null image fields.  (When the search produced no result
row at all, the method instead returns Python `None` — no rows — see the
counterexample.) -/
theorem c1_amended_total_coverage
    (tile_cloud_max : ℚ) (xmlOf : String → Option String) (min_cloud_only : Bool)
    (featureLinks : List String → FindS2.AoiFeature → List String)
    (validate : FindS2.AoiFeature → String → FindS2.ValidateResult)
    (extractDate : String → Option Nat) (aoi : List FindS2.AoiFeature)
    (img_links : List String)
    (hids : (aoi.map FindS2.AoiFeature.fid).Nodup)
    (hne : FindS2.find_images_per_feature (featureLinks img_links) validate
      extractDate aoi ≠ []) :
    ∃ out, FindS2.find_image_links false tile_cloud_max xmlOf min_cloud_only
        featureLinks validate extractDate aoi img_links = .ok (some out) ∧
      ∀ f ∈ aoi,
        1 ≤ (out.filter (fun o => o.fid == f.fid)).length ∧
        ((FindS2.find_images_per_feature (featureLinks img_links) validate
            extractDate aoi).filter (fun r => r.fid == f.fid) = [] →
          out.filter (fun o => o.fid == f.fid) = [⟨f.fid, f.attr, none, none, none⟩]) := by
  set rl := FindS2.find_images_per_feature (featureLinks img_links) validate
    extractDate aoi with hrl
  set df := if min_cloud_only then FindS2.minCloudSelect rl else rl with hdf
  have hgdf : FindS2.results_to_gdf min_cloud_only aoi rl =
      List.insertionSort FindS2.outRowLeP (FindS2.leftMerge aoi df) := by
    rw [FindS2.results_to_gdf]
  refine ⟨FindS2.results_to_gdf min_cloud_only aoi rl, ?_, ?_⟩
  · have hie : rl.isEmpty = false := List.isEmpty_eq_false.mpr hne
    show (if rl.isEmpty then Except.ok none
      else Except.ok (some (FindS2.results_to_gdf min_cloud_only aoi rl))) = _
    rw [hie]
    simp
  · intro f hf
    constructor
    · have hlen : ((FindS2.results_to_gdf min_cloud_only aoi rl).filter
          (fun o => o.fid == f.fid)).length =
          ((FindS2.leftMerge aoi df).filter (fun o => o.fid == f.fid)).length := by
        rw [hgdf]
        exact ((List.perm_insertionSort _ _).filter _).length_eq
      rw [hlen]
      exact leftMerge_count aoi df f hf
    · intro hzero
      have hdfz : df.filter (fun r => r.fid == f.fid) = [] := by
        rw [hdf]
        split
        · apply List.filter_eq_nil_iff.mpr
          intro r hrmem hb
          have hrrows : r ∈ rl := minCloudSelect_subset rl r hrmem
          have hmf : r ∈ rl.filter (fun x => x.fid == f.fid) :=
            List.mem_filter.mpr ⟨hrrows, hb⟩
          rw [hzero] at hmf
          cases hmf
        · exact hzero
      have hsingle := leftMerge_filter_of_no_match aoi df f hids hf hdfz
      have hp : ((FindS2.results_to_gdf min_cloud_only aoi rl).filter
          (fun o => o.fid == f.fid)).Perm
          ((FindS2.leftMerge aoi df).filter (fun o => o.fid == f.fid)) := by
        rw [hgdf]
        exact (List.perm_insertionSort _ _).filter _
      rw [hsingle] at hp
      exact List.perm_singleton.mp hp

/-- C1 amended witness: two features, the search passing an image only for
feature 1; feature 2 still gets its (single, null) row in the output. -/
theorem c1_amended_total_coverage_witness :
    (([⟨1, 0, 0⟩, ⟨2, 1, 1⟩] : List FindS2.AoiFeature).map
        FindS2.AoiFeature.fid).Nodup ∧
    FindS2.find_images_per_feature ((fun links _ => links) ["img"])
      (fun f _ => if f.fid = 1 then .intVal 5 else .fls) (fun _ => some 20230601)
      [⟨1, 0, 0⟩, ⟨2, 1, 1⟩] ≠ [] ∧
    (∃ out, FindS2.find_image_links false 100 (fun _ => none) false
        (fun links _ => links)
        (fun f _ => if f.fid = 1 then .intVal 5 else .fls) (fun _ => some 20230601)
        [⟨1, 0, 0⟩, ⟨2, 1, 1⟩] ["img"] = .ok (some out) ∧
      ∀ f ∈ ([⟨1, 0, 0⟩, ⟨2, 1, 1⟩] : List FindS2.AoiFeature),
        1 ≤ (out.filter (fun o => o.fid == f.fid)).length ∧
        ((FindS2.find_images_per_feature ((fun links _ => links) ["img"])
            (fun f _ => if f.fid = 1 then .intVal 5 else .fls) (fun _ => some 20230601)
            [⟨1, 0, 0⟩, ⟨2, 1, 1⟩]).filter (fun r => r.fid == f.fid) = [] →
          out.filter (fun o => o.fid == f.fid) =
            [⟨f.fid, f.attr, none, none, none⟩])) :=
  ⟨by decide, by decide,
    c1_amended_total_coverage 100 (fun _ => none) false (fun links _ => links)
      (fun f _ => if f.fid = 1 then .intVal 5 else .fls) (fun _ => some 20230601)
      [⟨1, 0, 0⟩, ⟨2, 1, 1⟩] ["img"] (by decide) (by decide)⟩

/-- C3 amended.  For an incremental re-run (an `image_link` column with at
least one resolved and at least one unresolved row, no full search), the
finder is invoked on exactly the unresolved rows (with their image columns
dropped), and — provided the re-search returns a result containing at least
one image — the written output is a permutation of the new rows together
with the previously resolved rows taken unchanged (none duplicated, none
dropped), sorted by `(id, image_date)`.  (When the re-search finds nothing
the run instead crashes with `AttributeError`, see the counterexample.) -/
theorem c3_amended_incremental_merge
    (search : List Main.SearchRow → Option (List Main.SearchRow))
    (sf newRows : List Main.SearchRow) (plot_images download_images : Bool)
    (hM : sf.any (fun r => r.image_link.isNone) = true)
    (hN : 0 < sf.countP (fun r => r.image_link.isSome))
    (hsearch : search ((sf.filter (fun r => r.image_link.isNone)).map
      Main.clearImgCols) = some newRows)
    (hnew : 0 < (newRows.filter (fun r => r.image_link.isSome)).length) :
    ∃ out, Main.get_images search true false plot_images download_images sf =
        .ok (some out) ∧
      out.Perm (newRows ++ sf.filter (fun r => r.image_link.isSome)) ∧
      List.Sorted Main.searchRowLeP out := by
  refine ⟨List.insertionSort Main.searchRowLeP
    (newRows ++ sf.filter (fun r => r.image_link.isSome)), ?_, ?_, ?_⟩
  · simp [Main.get_images, hM, hsearch, hN, hnew]
  · exact List.perm_insertionSort Main.searchRowLeP _
  · refine @List.sorted_insertionSort _ Main.searchRowLeP _ ⟨?_⟩ ⟨?_⟩ _
    · intro a b
      have h : Main.searchRowLe a b = true ∨ Main.searchRowLe b a = true := by
        have htot := fidDateLe_total a.fid b.fid a.image_date b.image_date
        simpa using htot
      exact h
    · intro a b c h1 h2
      exact fidDateLe_trans _ _ _ _ _ _ h1 h2

/-- C3 amended witness: one resolved row (id 1) and one unresolved row
(id 2); the re-search resolves id 2 and the merged output keeps the id 1 row
unchanged, sorted by id and date. -/
theorem c3_amended_incremental_merge_witness :
    (([⟨1, 0, some "L", some 1, some 3⟩, ⟨2, 1, none, none, none⟩] :
        List Main.SearchRow).any (fun r => r.image_link.isNone)) = true ∧
    0 < ([⟨1, 0, some "L", some 1, some 3⟩, ⟨2, 1, none, none, none⟩] :
        List Main.SearchRow).countP (fun r => r.image_link.isSome) ∧
    (fun (_ : List Main.SearchRow) =>
        some ([⟨2, 1, some "M", some 2, some 4⟩] : List Main.SearchRow))
      ((([⟨1, 0, some "L", some 1, some 3⟩, ⟨2, 1, none, none, none⟩] :
          List Main.SearchRow).filter (fun r => r.image_link.isNone)).map
        Main.clearImgCols) = some [⟨2, 1, some "M", some 2, some 4⟩] ∧
    0 < (([⟨2, 1, some "M", some 2, some 4⟩] : List Main.SearchRow).filter
      (fun r => r.image_link.isSome)).length ∧
    (∃ out, Main.get_images
        (fun _ => some [⟨2, 1, some "M", some 2, some 4⟩]) true false false false
        [⟨1, 0, some "L", some 1, some 3⟩, ⟨2, 1, none, none, none⟩] =
        .ok (some out) ∧
      out.Perm ([⟨2, 1, some "M", some 2, some 4⟩] ++
        ([⟨1, 0, some "L", some 1, some 3⟩, ⟨2, 1, none, none, none⟩] :
          List Main.SearchRow).filter (fun r => r.image_link.isSome)) ∧
      List.Sorted Main.searchRowLeP out) :=
  ⟨by decide, by decide, rfl, by decide,
    c3_amended_incremental_merge (fun _ => some [⟨2, 1, some "M", some 2, some 4⟩])
      [⟨1, 0, some "L", some 1, some 3⟩, ⟨2, 1, none, none, none⟩]
      [⟨2, 1, some "M", some 2, some 4⟩] false false
      (by decide) (by decide) rfl (by decide)⟩

end CedaSentinel
